import Mathlib

/-! silver_printer: the Linux method-channel responder

A shallow embedding of `linux/silver_printer_plugin.cc`:
`silver_printer_plugin_handle_method_call`, `get_platform_version` and
`method_call_cb`, together with the small part of libc, GLib and the Flutter
Linux embedder API they call (`strcmp`, `uname`, `g_strdup_printf`,
`fl_value_new_string`, the `FlMethodResponse` constructors and
`fl_method_call_respond`).

C strings are lists of bytes; a string ends at its first NUL byte. State
(the plugin object and the responses sent to the engine) is passed explicitly.
-/

namespace SilverPrinter

/-! ## C strings -/

/-- One `gchar`, as the value of the byte. -/
abbrev gchar := Nat

/-- The bytes a `const gchar*` points at. The string ends at the first NUL
byte; the end of the list stands for a NUL as well. -/
abbrev CBuf := List gchar

/-- The characters of the C string stored in a buffer: the bytes before the
first NUL. -/
def c_str (p : CBuf) : List gchar := p.takeWhile (fun c => c ≠ 0)

/-- A C string literal: the ASCII codes of its characters and the closing NUL. -/
def c_literal (s : String) : CBuf := s.toList.map Char.toNat ++ [0]

/-- The characters of a literal, without the closing NUL. -/
def chars (s : String) : List gchar := s.toList.map Char.toNat

/-- libc `strcmp`: walks both strings while the bytes agree and are not NUL, and
returns the difference of the first pair of bytes that differ (zero when both
strings end together). -/
def strcmp : CBuf → CBuf → Int
  | [], [] => 0
  | [], b :: _ => 0 - (b : Int)
  | a :: _, [] => (a : Int) - 0
  | a :: as, b :: bs =>
    if a ≠ b then (a : Int) - (b : Int)
    else if a = 0 then 0
    else strcmp as bs

/-- The formatting loop behind `g_strdup_printf`, for formats made of ordinary
characters and `%s` conversions (the only kind the plugin uses). `conv` tells
that the character before was a `%`. Ordinary characters are copied, a `%s` is
replaced by the characters of the next string argument, and the output is
NUL-terminated. A `%` followed by anything else is copied as it stands. -/
def format_loop (conv : Bool) : CBuf → List CBuf → CBuf
  | [], _ => [0]
  | c :: fmt, args =>
    if c = 0 then [0]
    else if conv then
      match decide (c = 115), args with
      | true, arg :: args1 => c_str arg ++ format_loop false fmt args1
      | _, _ => 37 :: c :: format_loop false fmt args
    else if c = 37 then format_loop true fmt args
    else c :: format_loop false fmt args

/-- GLib `g_strdup_printf` with string arguments: a fresh NUL-terminated
string holding the formatted text. -/
def g_strdup_printf (format : CBuf) (args : List CBuf) : CBuf :=
  format_loop false format args

/-! ## `uname(2)` -/

/-- Length of each `utsname` field in glibc. -/
def _UTSNAME_LENGTH : Nat := 65

/-- The `struct utsname` of `<sys/utsname.h>`: six fixed-size character arrays. -/
structure utsname where
  sysname : CBuf
  nodename : CBuf
  release : CBuf
  version : CBuf
  machine : CBuf
  domainname : CBuf
  deriving DecidableEq, Repr

/-- The value of `struct utsname uname_data = {}`: every byte is zero. -/
def utsname.zeroed : utsname :=
  { sysname := List.replicate _UTSNAME_LENGTH 0
    nodename := List.replicate _UTSNAME_LENGTH 0
    release := List.replicate _UTSNAME_LENGTH 0
    version := List.replicate _UTSNAME_LENGTH 0
    machine := List.replicate _UTSNAME_LENGTH 0
    domainname := List.replicate _UTSNAME_LENGTH 0 }

/-- The operating system's `uname` call: from the structure passed in to the
returned status (0 on success, -1 on failure) and the structure afterwards.
The plugin does not choose it, so it is a parameter of the model. -/
abbrev Uname := utsname → Int × utsname

/-! ## Flutter Linux embedder API -/

/-- An `FlValue`: the value kinds of the standard method codec that carry no
nested values (null, booleans, integers, strings and byte lists). -/
inductive FlValue where
  | null
  | bool (b : Bool)
  | int (i : Int)
  | string (s : List gchar)
  | uint8_list (bytes : List Nat)
  deriving DecidableEq, Repr

/-- An `FlMethodResponse`: the three response classes of the embedder. -/
inductive FlMethodResponse where
  | Success (result : FlValue)
  | Error (code : List gchar) (message : List gchar) (details : FlValue)
  | NotImplemented
  deriving DecidableEq, Repr

/-- An `FlMethodCall`: the method name and the arguments sent by the Dart side. -/
structure FlMethodCall where
  name : CBuf
  args : FlValue
  deriving DecidableEq, Repr

/-- Model of `fl_method_call_get_name`. -/
def fl_method_call_get_name (method_call : FlMethodCall) : CBuf := method_call.name

/-- Model of `fl_value_new_string`: a string value holding a copy of the C string. -/
def fl_value_new_string (value : CBuf) : FlValue := FlValue.string (c_str value)

/-- Model of `fl_method_success_response_new`. -/
def fl_method_success_response_new (result : FlValue) : FlMethodResponse :=
  FlMethodResponse.Success result

/-- Model of `fl_method_not_implemented_response_new`. -/
def fl_method_not_implemented_response_new : FlMethodResponse :=
  FlMethodResponse.NotImplemented

/-- The `FL_METHOD_RESPONSE` cast. -/
def FL_METHOD_RESPONSE (r : FlMethodResponse) : FlMethodResponse := r

/-- The responses handed to the engine so far: one entry per invocation of
`fl_method_call_respond`, with the call it answers and the response pointer
(`none` for `nullptr`). -/
abbrev Responded := List (FlMethodCall × Option FlMethodResponse)

/-- Model of `fl_method_call_respond`: records the response for the call. -/
def fl_method_call_respond (method_call : FlMethodCall)
    (response : Option FlMethodResponse) (sent : Responded) : Responded :=
  sent ++ [(method_call, response)]

/-! ## The plugin -/

/-- A `GObject` instance header. -/
structure GObject where
  ref_count : Nat
  deriving DecidableEq, Repr

/-- The `struct _SilverPrinterPlugin`: the parent instance and nothing else. -/
structure SilverPrinterPlugin where
  parent_instance : GObject
  deriving DecidableEq, Repr

/-- Embedding of `get_platform_version`. The status returned by `uname` is
dropped, as in the source. -/
def get_platform_version (uname : Uname) : FlMethodResponse :=
  let uname_data : utsname := utsname.zeroed
  let uname_data := (uname uname_data).2
  let version := g_strdup_printf (c_literal "Linux %s") [uname_data.version]
  let result := fl_value_new_string version
  FL_METHOD_RESPONSE (fl_method_success_response_new result)

set_option linter.unusedVariables false in
/-- Embedding of `silver_printer_plugin_handle_method_call`: returns the plugin
object and the responses sent after the call. -/
def silver_printer_plugin_handle_method_call (uname : Uname)
    (self : SilverPrinterPlugin) (method_call : FlMethodCall) (sent : Responded) :
    SilverPrinterPlugin × Responded :=
  let response : Option FlMethodResponse := none
  let method := fl_method_call_get_name method_call
  let response :=
    if strcmp method (c_literal "getPlatformVersion") = 0 then
      some (get_platform_version uname)
    else
      some (FL_METHOD_RESPONSE fl_method_not_implemented_response_new)
  (self, fl_method_call_respond method_call response sent)

/-- The state the channel callback works on: the plugin object that
`user_data` points at and the responses sent so far. -/
structure Host where
  plugin : SilverPrinterPlugin
  sent : Responded
  deriving DecidableEq, Repr

/-- Embedding of `method_call_cb`: hands the call to the plugin in `user_data`. -/
def method_call_cb (uname : Uname) (method_call : FlMethodCall) (h : Host) : Host :=
  let plugin := h.plugin
  let r := silver_printer_plugin_handle_method_call uname plugin method_call h.sent
  { plugin := r.1, sent := r.2 }

/-- The channel delivering a sequence of calls, one after the other. -/
def deliver (uname : Uname) (calls : List FlMethodCall) (h : Host) : Host :=
  calls.foldl (fun st c => method_call_cb uname c st) h

/-- The response a call gets when it is the only call handled, on a plugin
object `p` with nothing sent before. -/
def respond_alone (uname : Uname) (p : SilverPrinterPlugin) (c : FlMethodCall) :
    Responded :=
  (silver_printer_plugin_handle_method_call uname p c []).2


/-- The response the handler computes, as a function of `uname` and the bytes
of the method name (used to state the lemmas below). -/
def response_for (uname : Uname) (name : CBuf) : FlMethodResponse :=
  if strcmp name (c_literal "getPlatformVersion") = 0 then get_platform_version uname
  else FlMethodResponse.NotImplemented

/-! ## Sample data -/

/-- A `utsname` field holding the string `s`: its characters, NUL-padded to the
field length. -/
def utsname_field (s : String) : CBuf :=
  chars s ++ List.replicate (_UTSNAME_LENGTH - s.length) 0

/-- What `uname` reports on an Ubuntu 22.04 host running kernel 5.15.0-76. -/
def ubuntu_uname : Uname := fun _ =>
  (0, { sysname := utsname_field "Linux"
        nodename := utsname_field "ubuntu"
        release := utsname_field "5.15.0-76-generic"
        version := utsname_field "#83-Ubuntu SMP Thu Jun 15 19:16:32 UTC 2023"
        machine := utsname_field "x86_64"
        domainname := utsname_field "(none)" })

/-- A `uname` that succeeds and writes "5.15.0-76-generic" to the `version`
field only. -/
def version_only_uname : Uname := fun u =>
  (0, { u with version := utsname_field "5.15.0-76-generic" })

/-- A `uname` that fails and does not write to the structure. -/
def failing_uname : Uname := fun u => (-1, u)

/-- A call of the method `s` without arguments. -/
def call_of (s : String) : FlMethodCall := { name := c_literal s, args := FlValue.null }

/-- A plugin instance as `g_object_new` leaves it. -/
def a_plugin : SilverPrinterPlugin := { parent_instance := { ref_count := 1 } }

/-! ## Lemmas on the C-string primitives -/

theorem c_str_nil : c_str [] = [] := rfl

theorem c_str_cons (a : Nat) (p : List Nat) :
    c_str (a :: p) = if a = 0 then [] else a :: c_str p := by
  by_cases h : a = 0 <;> simp [c_str, List.takeWhile, h]

/-- The comparison `strcmp a b == 0` holds exactly when the two C strings have
the same characters. -/
theorem strcmp_eq_zero_iff (a b : List Nat) : strcmp a b = 0 ↔ c_str a = c_str b := by
  induction a generalizing b with
  | nil =>
    cases b with
    | nil => simp [strcmp]
    | cons y ys =>
      rw [c_str_cons]
      by_cases hy : y = 0
      · simp [strcmp, hy, c_str_nil]
      · simp [strcmp, hy, c_str_nil]
  | cons x xs ih =>
    cases b with
    | nil =>
      rw [c_str_cons]
      by_cases hx : x = 0
      · simp [strcmp, hx, c_str_nil]
      · simp [strcmp, hx, c_str_nil]
    | cons y ys =>
      rw [c_str_cons, c_str_cons]
      by_cases hxy : x = y
      · subst hxy
        by_cases hx : x = 0
        · simp [strcmp, hx]
        · simp [strcmp, hx, ih]
      · have hsub : (x : Int) - (y : Int) ≠ 0 := by omega
        by_cases hx : x = 0
        · have hy : ¬ y = 0 := fun h => hxy (by rw [hx, h])
          simp [strcmp, hxy, hx, hy, hsub]
          exact fun h => hy h.symm
        · by_cases hy : y = 0
          · simp [strcmp, hxy, hx, hy]
          · simp [strcmp, hxy, hx, hy, hsub]

/-- Reading a C string back from a buffer that holds a C string's characters
followed by a NUL gives the same characters. -/
theorem c_str_append_nul (v rest : List Nat) : c_str (c_str v ++ 0 :: rest) = c_str v := by
  induction v with
  | nil => simp [c_str_nil, c_str_cons]
  | cons x xs ih =>
    by_cases hx : x = 0
    · simp [c_str_cons, hx]
    · simp [c_str_cons, hx, ih]

theorem c_literal_linux_fmt : c_literal "Linux %s" = [76, 105, 110, 117, 120, 32, 37, 115, 0] := by
  decide

theorem chars_linux_sp : chars "Linux " = [76, 105, 110, 117, 120, 32] := by decide

theorem c_str_method_literal :
    c_str (c_literal "getPlatformVersion") = chars "getPlatformVersion" := by decide

/-- The format `"Linux %s"` applied to one string: the six characters of
`"Linux "`, the characters of the argument, and the closing NUL. -/
theorem g_strdup_printf_linux (v : CBuf) :
    g_strdup_printf (c_literal "Linux %s") [v] = chars "Linux " ++ (c_str v ++ [0]) := by
  rw [c_literal_linux_fmt, chars_linux_sp]
  simp [g_strdup_printf, format_loop]

/-- The value `get_platform_version` computes, for any behaviour of `uname`. -/
theorem get_platform_version_eq (uname : Uname) :
    get_platform_version uname =
      FlMethodResponse.Success
        (FlValue.string (chars "Linux " ++ c_str (uname utsname.zeroed).2.version)) := by
  simp only [get_platform_version, FL_METHOD_RESPONSE, fl_method_success_response_new,
    fl_value_new_string, g_strdup_printf_linux]
  congr 2
  rw [chars_linux_sp]
  have h := c_str_append_nul (uname utsname.zeroed).2.version []
  simp [c_str_cons, h]

/-- The branch taken on the supported method name. -/
theorem handle_supported (uname : Uname) (self : SilverPrinterPlugin)
    (method_call : FlMethodCall) (sent : Responded)
    (h : c_str (fl_method_call_get_name method_call) = chars "getPlatformVersion") :
    silver_printer_plugin_handle_method_call uname self method_call sent =
      (self, sent ++ [(method_call, some (get_platform_version uname))]) := by
  have hz : strcmp (fl_method_call_get_name method_call) (c_literal "getPlatformVersion") = 0 := by
    rw [strcmp_eq_zero_iff, c_str_method_literal]
    exact h
  simp [silver_printer_plugin_handle_method_call, fl_method_call_respond, hz]

/-- The fallback branch. -/
theorem handle_fallback (uname : Uname) (self : SilverPrinterPlugin)
    (method_call : FlMethodCall) (sent : Responded)
    (h : c_str (fl_method_call_get_name method_call) ≠ chars "getPlatformVersion") :
    silver_printer_plugin_handle_method_call uname self method_call sent =
      (self, sent ++ [(method_call, some FlMethodResponse.NotImplemented)]) := by
  have hz : ¬ strcmp (fl_method_call_get_name method_call) (c_literal "getPlatformVersion") = 0 := by
    rw [strcmp_eq_zero_iff, c_str_method_literal]
    exact h
  simp [silver_printer_plugin_handle_method_call, fl_method_call_respond, hz,
    FL_METHOD_RESPONSE, fl_method_not_implemented_response_new]

theorem handle_eq (uname : Uname) (self : SilverPrinterPlugin)
    (method_call : FlMethodCall) (sent : Responded) :
    silver_printer_plugin_handle_method_call uname self method_call sent =
      (self, sent ++ [(method_call, some (response_for uname method_call.name))]) := by
  by_cases hz : strcmp method_call.name (c_literal "getPlatformVersion") = 0 <;>
    simp [silver_printer_plugin_handle_method_call, fl_method_call_respond, hz,
      FL_METHOD_RESPONSE, fl_method_not_implemented_response_new, response_for,
      fl_method_call_get_name]

theorem method_call_cb_eq (uname : Uname) (method_call : FlMethodCall) (h : Host) :
    method_call_cb uname method_call h =
      { plugin := h.plugin
        sent := h.sent ++ [(method_call, some (response_for uname method_call.name))] } := by
  simp [method_call_cb, handle_eq]

theorem respond_alone_eq (uname : Uname) (p : SilverPrinterPlugin) (c : FlMethodCall) :
    respond_alone uname p c = [(c, some (response_for uname c.name))] := by
  simp [respond_alone, handle_eq]

theorem deliver_eq (uname : Uname) (calls : List FlMethodCall) (h : Host) :
    deliver uname calls h =
      { plugin := h.plugin
        sent := h.sent ++ calls.map (fun c => (c, some (response_for uname c.name))) } := by
  induction calls generalizing h with
  | nil => simp [deliver]
  | cons c cs ih =>
    have hstep : deliver uname (c :: cs) h = deliver uname cs (method_call_cb uname c h) := by
      simp [deliver]
    rw [hstep, ih, method_call_cb_eq]
    simp

theorem response_for_cases (uname : Uname) (name : CBuf) :
    response_for uname name = FlMethodResponse.NotImplemented ∨
      ∃ v, response_for uname name = FlMethodResponse.Success v := by
  by_cases hz : strcmp name (c_literal "getPlatformVersion") = 0
  · right
    exact ⟨_, by simp only [response_for, hz, if_true]; exact get_platform_version_eq uname⟩
  · left
    simp [response_for, hz]

/-! ## The claims -/

/-- C1: a call whose method name is any string other than exactly
"getPlatformVersion" is answered with the NotImplemented response, and never
with a Success response. -/
theorem other_method_not_implemented (uname : Uname) (self : SilverPrinterPlugin)
    (method_call : FlMethodCall) (sent : Responded)
    (h : c_str (fl_method_call_get_name method_call) ≠ chars "getPlatformVersion") :
    silver_printer_plugin_handle_method_call uname self method_call sent =
        (self, sent ++ [(method_call, some FlMethodResponse.NotImplemented)]) ∧
      ∀ v, silver_printer_plugin_handle_method_call uname self method_call sent ≠
        (self, sent ++ [(method_call, some (FlMethodResponse.Success v))]) := by
  have hf := handle_fallback uname self method_call sent h
  refine ⟨hf, ?_⟩
  intro v hv
  rw [hf] at hv
  simp at hv

/-- Witness for C1: the empty name, a name differing only in case, a strict
beginning of the name and an extension of it all get NotImplemented. -/
theorem other_method_not_implemented_witness :
    (c_str (fl_method_call_get_name (call_of "")) ≠ chars "getPlatformVersion" ∧
      silver_printer_plugin_handle_method_call ubuntu_uname a_plugin (call_of "") [] =
        (a_plugin, [(call_of "", some FlMethodResponse.NotImplemented)])) ∧
    (c_str (fl_method_call_get_name (call_of "getplatformversion")) ≠
        chars "getPlatformVersion" ∧
      silver_printer_plugin_handle_method_call ubuntu_uname a_plugin
          (call_of "getplatformversion") [] =
        (a_plugin, [(call_of "getplatformversion", some FlMethodResponse.NotImplemented)])) ∧
    (c_str (fl_method_call_get_name (call_of "getPlatform")) ≠ chars "getPlatformVersion" ∧
      silver_printer_plugin_handle_method_call ubuntu_uname a_plugin
          (call_of "getPlatform") [] =
        (a_plugin, [(call_of "getPlatform", some FlMethodResponse.NotImplemented)])) ∧
    (c_str (fl_method_call_get_name (call_of "getPlatformVersion2")) ≠
        chars "getPlatformVersion" ∧
      silver_printer_plugin_handle_method_call ubuntu_uname a_plugin
          (call_of "getPlatformVersion2") [] =
        (a_plugin, [(call_of "getPlatformVersion2", some FlMethodResponse.NotImplemented)])) :=
  ⟨⟨by decide, (other_method_not_implemented ubuntu_uname a_plugin (call_of "") []
      (by decide)).1⟩,
   ⟨by decide, (other_method_not_implemented ubuntu_uname a_plugin
      (call_of "getplatformversion") [] (by decide)).1⟩,
   ⟨by decide, (other_method_not_implemented ubuntu_uname a_plugin
      (call_of "getPlatform") [] (by decide)).1⟩,
   ⟨by decide, (other_method_not_implemented ubuntu_uname a_plugin
      (call_of "getPlatformVersion2") [] (by decide)).1⟩⟩

/-- C2: a call whose method name is "getPlatformVersion" is answered, whatever
`uname` does, with a Success response whose string value is non-empty and
starts with "Linux". -/
theorem supported_method_success (uname : Uname) (self : SilverPrinterPlugin)
    (method_call : FlMethodCall) (sent : Responded)
    (h : c_str (fl_method_call_get_name method_call) = chars "getPlatformVersion") :
    ∃ v, silver_printer_plugin_handle_method_call uname self method_call sent =
        (self, sent ++ [(method_call, some (FlMethodResponse.Success (FlValue.string v)))]) ∧
      v ≠ [] ∧ chars "Linux" <+: v := by
  refine ⟨chars "Linux " ++ c_str (uname utsname.zeroed).2.version, ?_, ?_, ?_⟩
  · rw [handle_supported uname self method_call sent h, get_platform_version_eq]
  · rw [chars_linux_sp]
    simp
  · refine ⟨chars " " ++ c_str (uname utsname.zeroed).2.version, ?_⟩
    rw [← List.append_assoc]
    congr 1

/-- Witness for C2: the call "getPlatformVersion" on the sample host. -/
theorem supported_method_success_witness :
    c_str (fl_method_call_get_name (call_of "getPlatformVersion")) =
        chars "getPlatformVersion" ∧
      ∃ v, silver_printer_plugin_handle_method_call ubuntu_uname a_plugin
          (call_of "getPlatformVersion") [] =
        (a_plugin, [] ++ [(call_of "getPlatformVersion",
          some (FlMethodResponse.Success (FlValue.string v)))]) ∧
      v ≠ [] ∧ chars "Linux" <+: v :=
  ⟨by decide, supported_method_success ubuntu_uname a_plugin (call_of "getPlatformVersion") []
    (by decide)⟩

/-- C3: for every behaviour of `uname`, `get_platform_version` returns Success
whose value is exactly "Linux", one space, and the characters of the `version`
field that `uname` left in the structure, with nothing else. -/
theorem get_platform_version_format (uname : Uname) :
    get_platform_version uname =
      FlMethodResponse.Success (FlValue.string
        (chars "Linux" ++ chars " " ++ c_str (uname utsname.zeroed).2.version)) := by
  rw [get_platform_version_eq]
  congr 2

/-- C4, as stated, fails: on a host whose kernel release string is
"5.15.0-76-generic" (and whose `version` field is the build string of that
kernel) the call "getPlatformVersion" is answered with the build string after
"Linux ", not with the release string. -/
theorem release_string_not_reported :
    c_str (ubuntu_uname utsname.zeroed).2.release = chars "5.15.0-76-generic" ∧
      silver_printer_plugin_handle_method_call ubuntu_uname a_plugin
          (call_of "getPlatformVersion") [] =
        (a_plugin, [(call_of "getPlatformVersion", some (FlMethodResponse.Success
          (FlValue.string (chars "Linux #83-Ubuntu SMP Thu Jun 15 19:16:32 UTC 2023"))))]) ∧
      silver_printer_plugin_handle_method_call ubuntu_uname a_plugin
          (call_of "getPlatformVersion") [] ≠
        (a_plugin, [(call_of "getPlatformVersion", some (FlMethodResponse.Success
          (FlValue.string (chars "Linux 5.15.0-76-generic"))))]) := by
  decide

/-- C4, amended: for the call "getPlatformVersion" on a host where the
`version` field filled in by `uname` holds "5.15.0-76-generic", the response
is Success("Linux 5.15.0-76-generic"), whatever the other fields (the release
among them) hold. -/
theorem version_field_reported (uname : Uname) (self : SilverPrinterPlugin)
    (method_call : FlMethodCall) (sent : Responded)
    (hm : c_str (fl_method_call_get_name method_call) = chars "getPlatformVersion")
    (hv : c_str (uname utsname.zeroed).2.version = chars "5.15.0-76-generic") :
    silver_printer_plugin_handle_method_call uname self method_call sent =
      (self, sent ++ [(method_call, some (FlMethodResponse.Success
        (FlValue.string (chars "Linux 5.15.0-76-generic"))))]) := by
  rw [handle_supported uname self method_call sent hm, get_platform_version_eq, hv]
  congr 7

/-- Witness for the amended C4: a `uname` that writes "5.15.0-76-generic" to
the `version` field and leaves the release empty. -/
theorem version_field_reported_witness :
    c_str (fl_method_call_get_name (call_of "getPlatformVersion")) =
        chars "getPlatformVersion" ∧
      c_str (version_only_uname utsname.zeroed).2.version = chars "5.15.0-76-generic" ∧
      c_str (version_only_uname utsname.zeroed).2.release = [] ∧
      silver_printer_plugin_handle_method_call version_only_uname
          a_plugin (call_of "getPlatformVersion") [] =
        (a_plugin, [(call_of "getPlatformVersion", some (FlMethodResponse.Success
          (FlValue.string (chars "Linux 5.15.0-76-generic"))))]) :=
  ⟨by decide, by decide, by decide,
    version_field_reported version_only_uname a_plugin (call_of "getPlatformVersion") []
      (by decide) (by decide)⟩

/-- C5: every call, whatever its method name and arguments, is answered
exactly once: handling it adds one entry for that call to the responses sent,
and the response in it is not null. The same holds through `method_call_cb`. -/
theorem responds_exactly_once (uname : Uname) (self : SilverPrinterPlugin)
    (method_call : FlMethodCall) (sent : Responded) (host : Host) :
    ∃ r : FlMethodResponse,
      silver_printer_plugin_handle_method_call uname self method_call sent =
        (self, sent ++ [(method_call, some r)]) ∧
      (silver_printer_plugin_handle_method_call uname self method_call sent).2.length =
        sent.length + 1 ∧
      method_call_cb uname method_call host =
        { plugin := host.plugin, sent := host.sent ++ [(method_call, some r)] } := by
  refine ⟨response_for uname method_call.name, handle_eq uname self method_call sent, ?_,
    method_call_cb_eq uname method_call host⟩
  rw [handle_eq]
  simp

/-- C6: the outcomes are exactly Success and NotImplemented. For every call and
every behaviour of `uname` (a failing one included) the response is one of the
two and is never an Error response; a call of "getPlatformVersion" gets
Success and a call of "foo" gets NotImplemented. -/
theorem outcomes_success_or_not_implemented :
    (∀ (uname : Uname) (self : SilverPrinterPlugin) (method_call : FlMethodCall)
        (sent : Responded),
      ∃ r : FlMethodResponse,
        silver_printer_plugin_handle_method_call uname self method_call sent =
          (self, sent ++ [(method_call, some r)]) ∧
        (r = FlMethodResponse.NotImplemented ∨ ∃ v, r = FlMethodResponse.Success v) ∧
        ∀ code message details, r ≠ FlMethodResponse.Error code message details) ∧
    (∀ (uname : Uname) (self : SilverPrinterPlugin) (sent : Responded),
      ∃ v, silver_printer_plugin_handle_method_call uname self
          (call_of "getPlatformVersion") sent =
        (self, sent ++ [(call_of "getPlatformVersion", some (FlMethodResponse.Success v))])) ∧
    (∀ (uname : Uname) (self : SilverPrinterPlugin) (sent : Responded),
      silver_printer_plugin_handle_method_call uname self (call_of "foo") sent =
        (self, sent ++ [(call_of "foo", some FlMethodResponse.NotImplemented)])) := by
  refine ⟨?_, ?_, ?_⟩
  · intro uname self method_call sent
    refine ⟨response_for uname method_call.name, handle_eq uname self method_call sent,
      response_for_cases uname method_call.name, ?_⟩
    intro code message details he
    rcases response_for_cases uname method_call.name with h | ⟨v, h⟩ <;>
      rw [h] at he <;> cases he
  · intro uname self sent
    exact ⟨_, by
      rw [handle_supported uname self (call_of "getPlatformVersion") sent (by decide),
        get_platform_version_eq]⟩
  · intro uname self sent
    exact handle_fallback uname self (call_of "foo") sent (by decide)

/-- C7: determinism. Under the same `uname`, handling the same call from any two
states gives the same response, and delivering the call twice in a row records
that response twice. -/
theorem same_call_same_response (uname : Uname) (method_call : FlMethodCall)
    (self1 self2 : SilverPrinterPlugin) (sent1 sent2 : Responded) (host : Host) :
    ∃ r : FlMethodResponse,
      silver_printer_plugin_handle_method_call uname self1 method_call sent1 =
        (self1, sent1 ++ [(method_call, some r)]) ∧
      silver_printer_plugin_handle_method_call uname self2 method_call sent2 =
        (self2, sent2 ++ [(method_call, some r)]) ∧
      deliver uname [method_call, method_call] host =
        { plugin := host.plugin
          sent := host.sent ++ [(method_call, some r), (method_call, some r)] } := by
  refine ⟨response_for uname method_call.name, handle_eq _ _ _ _, handle_eq _ _ _ _, ?_⟩
  rw [deliver_eq]
  simp

/-- C8: the response does not depend on the arguments. Two calls with the same
method name and any two argument values get, under the same `uname`, the same
response. -/
theorem response_independent_of_arguments (uname : Uname) (name : CBuf)
    (args1 args2 : FlValue) (self : SilverPrinterPlugin) (sent : Responded) :
    ∃ r : FlMethodResponse,
      silver_printer_plugin_handle_method_call uname self
          { name := name, args := args1 } sent =
        (self, sent ++ [({ name := name, args := args1 }, some r)]) ∧
      silver_printer_plugin_handle_method_call uname self
          { name := name, args := args2 } sent =
        (self, sent ++ [({ name := name, args := args2 }, some r)]) :=
  ⟨response_for uname name, handle_eq _ _ _ _, handle_eq _ _ _ _⟩

/-- C9: statelessness. The plugin object is its parent instance and nothing
more, handling a call returns it unchanged, and for every sequence of calls the
responses sent are, call by call, the responses each call gets when handled
alone (on any plugin object, with nothing sent before). -/
theorem stateless_sequence :
    (∀ p : SilverPrinterPlugin, p = { parent_instance := p.parent_instance }) ∧
    (∀ (uname : Uname) (self : SilverPrinterPlugin) (method_call : FlMethodCall)
        (sent : Responded),
      (silver_printer_plugin_handle_method_call uname self method_call sent).1 = self) ∧
    (∀ (uname : Uname) (calls : List FlMethodCall) (host : Host) (p : SilverPrinterPlugin),
      deliver uname calls host =
        { plugin := host.plugin
          sent := host.sent ++ calls.flatMap (respond_alone uname p) }) := by
  refine ⟨fun p => rfl, ?_, ?_⟩
  · intro uname self method_call sent
    rw [handle_eq]
  · intro uname calls host p
    rw [deliver_eq]
    congr 2
    induction calls with
    | nil => rfl
    | cons c cs ih => simp [respond_alone_eq, ih]

/-- C10: when `uname` fails and leaves the zeroed structure as it was,
`get_platform_version` still returns Success, with the value "Linux " ("Linux",
one space, and an empty version). -/
theorem failed_uname_gives_linux_space (uname : Uname)
    (hfail : uname utsname.zeroed = (-1, utsname.zeroed)) :
    get_platform_version uname =
        FlMethodResponse.Success (FlValue.string (chars "Linux ")) ∧
      get_platform_version uname ≠ FlMethodResponse.NotImplemented ∧
      ∀ code message details,
        get_platform_version uname ≠ FlMethodResponse.Error code message details := by
  have hz : c_str utsname.zeroed.version = [] := by decide
  have he : get_platform_version uname =
      FlMethodResponse.Success (FlValue.string (chars "Linux ")) := by
    rw [get_platform_version_eq, hfail]
    simp [hz]
  refine ⟨he, ?_, ?_⟩
  · rw [he]
    intro h
    cases h
  · intro code message details h
    rw [he] at h
    cases h

/-- Witness for C10: the `uname` that returns -1 and writes nothing. -/
theorem failed_uname_gives_linux_space_witness :
    failing_uname utsname.zeroed = (-1, utsname.zeroed) ∧
      get_platform_version failing_uname =
        FlMethodResponse.Success (FlValue.string (chars "Linux ")) :=
  ⟨rfl, (failed_uname_gives_linux_space failing_uname rfl).1⟩

end SilverPrinter
